import Mathlib

/-!
Shallow embedding of the cybersecurity analytics scripts (m2 to m6 and the
data generators) of the repository, together with proofs of the spec claims.

DataFrames are modelled as lists of records; a nullable column entry is an
`Option` value (`none` is pandas NaN).  Numeric columns are rationals.
Console prints and file writes are modelled as explicit event lists.
-/

namespace IARepo

/-! ## Generic column helpers (pandas semantics) -/

/-- pandas `Series.median`: sort ascending, take the middle element for odd
length, the mean of the two middle elements for even length, `None` for an
empty series.  (The sort is Mathlib insertion sort; only the multiset of
values matters for the median.) -/
def medianQ (l : List ℚ) : Option ℚ :=
  let s := l.insertionSort (· ≤ ·)
  if s.length = 0 then none
  else if s.length % 2 = 1 then some (s.getD (s.length / 2) 0)
  else some ((s.getD (s.length / 2 - 1) 0 + s.getD (s.length / 2) 0) / 2)

/-- `df.loc[df[col] < 0, col] = np.nan` at the level of a single entry:
a negative value becomes null, anything else is kept (NaN compares false,
so nulls are untouched). -/
def maskNeg (v : Option ℚ) : Option ℚ :=
  match v with
  | some x => if x < 0 then none else some x
  | none => none

/-- `Series.fillna(m)` at the level of a single entry, where `m` itself may
be missing (`fillna(NaN)` leaves nulls in place). -/
def fillWith (m : Option ℚ) (v : Option ℚ) : Option ℚ :=
  match v with
  | some x => some x
  | none => m

/-- m2 numeric cleaning of one column
(`df.loc[df[col] < 0, col] = np.nan; df[col] = df[col].fillna(df[col].median())`):
negatives become null, then nulls are filled with the median of the
remaining (non-null, hence non-negative) values. -/
def cleanNumCol (xs : List (Option ℚ)) : List (Option ℚ) :=
  let masked := xs.map maskNeg
  masked.map (fillWith (medianQ (masked.filterMap id)))

/-- pandas `Series.mean` of a column: skips nulls; `None` on an all-null
column. -/
def colMean (xs : List (Option ℚ)) : Option ℚ :=
  let vs := xs.filterMap id
  if vs.length = 0 then none else some (vs.sum / (vs.length : ℚ))

/-- Python `str.lower` (ASCII model) on the character list of a string. -/
def pyLower (s : String) : String :=
  String.mk (s.data.map Char.toLower)

/-- Python `str.strip` (whitespace default) on the character list of a
string. -/
def pyStrip (s : String) : String :=
  String.mk
    (((s.data.dropWhile Char.isWhitespace).reverse.dropWhile
      Char.isWhitespace).reverse)

/-- Python `str.title` (ASCII model): a letter that follows a letter is
lowercased, any other letter is uppercased. -/
def pyTitleAux : Bool → List Char → List Char
  | _, [] => []
  | prevAlpha, c :: cs =>
    let c2 := if c.isAlpha then (if prevAlpha then c.toLower else c.toUpper) else c
    c2 :: pyTitleAux c.isAlpha cs

/-- Python `str.title` on a string. -/
def pyTitle (s : String) : String :=
  String.mk (pyTitleAux false s.data)

/-! ## Row schemas

Columns follow the generators `incidents.py` and `login.py`. -/

/-- A raw incidents row as parsed from `incidents.csv` (all columns
nullable). -/
structure IncRow where
  entreprise : Option String
  secteur : Option String
  taille : Option ℚ
  typeAttaque : Option String
  date : Option ℚ
  vecteur : Option String
  impactAriary : Option ℚ
  indispoHeures : Option ℚ
  donneesCompromises : Option String
  campagneSecurite : Option String
  deriving DecidableEq, Repr

/-- A raw logins row as parsed from `logins.csv` (all columns nullable);
`dateHeure` is a timestamp in seconds. -/
structure LogRow where
  utilisateur : Option String
  role : Option String
  departement : Option String
  dateHeure : Option ℚ
  ipSource : Option String
  localisation : Option String
  resultat : Option String
  deriving DecidableEq, Repr

/-! ## m2 `CyberSecurityDataExplorer.clean_incidents` / `clean_logins` -/

/-- `df["Secteur"] = df["Secteur"].fillna("Unknown").str.strip().str.title()` -/
def stSecteur (r : IncRow) : IncRow :=
  { r with secteur := some (pyTitle (pyStrip (r.secteur.getD "Unknown"))) }

/-- `df["TypeAttaque"] = df["TypeAttaque"].fillna("unknown").str.strip().str.lower()` -/
def stTypeAttaque (r : IncRow) : IncRow :=
  { r with typeAttaque := some (pyLower (pyStrip (r.typeAttaque.getD "unknown"))) }

/-- `df["Vecteur"] = df["Vecteur"].fillna("unknown").str.strip().str.lower()` -/
def stVecteur (r : IncRow) : IncRow :=
  { r with vecteur := some (pyLower (pyStrip (r.vecteur.getD "unknown"))) }

/-- `df["Entreprise"] = df["Entreprise"].fillna("Unknown").str.strip()` -/
def stEntreprise (r : IncRow) : IncRow :=
  { r with entreprise := some (pyStrip (r.entreprise.getD "Unknown")) }

/-- Replace one numeric column of a frame by its m2-cleaned version:
read the column with `g`, clean it with `cleanNumCol`, write it back with
the field setter `s`. -/
def setNumCol {α : Type} (df : List α) (g : α → Option ℚ)
    (s : α → Option ℚ → α) : List α :=
  (df.zip (cleanNumCol (df.map g))).map (fun p => s p.1 p.2)

/-- The body of `clean_incidents` after the `df.copy()`: the four text
column assignments, then the three numeric column assignments. -/
def cleanIncidentsBody (df : List IncRow) : List IncRow :=
  let d1 := df.map stSecteur
  let d2 := d1.map stTypeAttaque
  let d3 := d2.map stVecteur
  let d4 := d3.map stEntreprise
  let d5 := setNumCol d4 (fun r => r.impactAriary)
    (fun r v => { r with impactAriary := v })
  let d6 := setNumCol d5 (fun r => r.indispoHeures)
    (fun r v => { r with indispoHeures := v })
  setNumCol d6 (fun r => r.taille) (fun r v => { r with taille := v })

/-- m2 `CyberSecurityDataExplorer.clean_incidents`: returns the argument
unchanged when it is empty, otherwise works on a copy. -/
def cleanIncidents (df : List IncRow) : List IncRow :=
  if df = [] then df else cleanIncidentsBody df

/-- `df["Resultat"] = df["Resultat"].fillna("unknown").str.lower().str.strip()` -/
def stResultat (r : LogRow) : LogRow :=
  { r with resultat := some (pyStrip (pyLower (r.resultat.getD "unknown"))) }

/-- `df["Localisation"] = df["Localisation"].fillna("Unknown").str.title()` -/
def stLocalisation (r : LogRow) : LogRow :=
  { r with localisation := some (pyTitle (r.localisation.getD "Unknown")) }

/-- `df["Role"] = df["Role"].fillna("Employe").str.title()` -/
def stRole (r : LogRow) : LogRow :=
  { r with role := some (pyTitle (r.role.getD "Employe")) }

/-- `df["Utilisateur"] = df["Utilisateur"].fillna("Unknown")` -/
def stUtilisateur (r : LogRow) : LogRow :=
  { r with utilisateur := some (r.utilisateur.getD "Unknown") }

/-- `df["IPSource"] = df["IPSource"].fillna("0.0.0.0")` -/
def stIPSource (r : LogRow) : LogRow :=
  { r with ipSource := some (r.ipSource.getD "0.0.0.0") }

/-- The body of `clean_logins` after the `df.copy()`: the five column
assignments in source order. -/
def cleanLoginsBody (df : List LogRow) : List LogRow :=
  let d1 := df.map stResultat
  let d2 := d1.map stLocalisation
  let d3 := d2.map stRole
  let d4 := d3.map stUtilisateur
  d4.map stIPSource

/-- m2 `CyberSecurityDataExplorer.clean_logins`: returns the argument
unchanged when it is empty, otherwise works on a copy. -/
def cleanLogins (df : List LogRow) : List LogRow :=
  if df = [] then df else cleanLoginsBody df

/-- m2 `self.logins_df` as seen by `calculate_failure_rate`: absent
(`None`), or a frame that may lack the `Resultat` column. -/
inductive LoginsState where
  | noFrame
  | frame (hasResultat : Bool) (rows : List LogRow)
  deriving DecidableEq, Repr

/-- The valid rows of `calculate_failure_rate`: `Resultat` non-null and
different from "unknown". -/
def validResults (rows : List LogRow) : List String :=
  (rows.filterMap (fun r => r.resultat)).filter (fun s => s != "unknown")

/-- m2 `CyberSecurityDataExplorer.calculate_failure_rate`: 0.0 when the
frame is absent, empty, lacks `Resultat`, or has no valid row; otherwise
the mean of the boolean series `Resultat == "échec"` over the valid rows. -/
def calculate_failure_rate : LoginsState → ℚ
  | LoginsState.noFrame => 0
  | LoginsState.frame hasR rows =>
    if rows = [] then 0
    else if hasR = false then 0
    else
      let valid := validResults rows
      if valid = [] then 0
      else ((valid.filter (fun s => s == "échec")).length : ℚ) /
        ((valid.length : ℚ))

/-! ## Heap model of the two cleaning functions (for the frame claim)

Python mutates frame objects in place; `clean_incidents` and `clean_logins`
rebind the local name `df` to `df.copy()` before any column assignment, so
the caller object is untouched.  We model the bodies as programs over a
heap of frame objects: the argument lives at address 0, `df.copy()`
allocates address 1, and every subsequent column assignment writes to the
address the local `df` points at. -/

/-- A heap of frame objects, addressed by naturals. -/
def Heap (α : Type) : Type := Nat → List α

/-- One statement: the address written to, and the new value as a function
of the whole heap (reads are heap lookups). -/
def Stmt (α : Type) : Type := Nat × (Heap α → List α)

/-- Write the value of one statement into the heap. -/
def writeStmt {α : Type} (h : Heap α) (st : Stmt α) : Heap α :=
  fun n => if n = st.1 then st.2 h else h n

/-- Run a straight-line program over the heap. -/
def runProg {α : Type} (prog : List (Stmt α)) (h : Heap α) : Heap α :=
  prog.foldl writeStmt h

/-- The statements of `clean_incidents` on a non-empty frame: `df.copy()`
allocates address 1 from address 0, then each column assignment writes to
address 1. -/
def cleanIncidentsProg : List (Stmt IncRow) :=
  [ (1, fun h => h 0),
    (1, fun h => (h 1).map stSecteur),
    (1, fun h => (h 1).map stTypeAttaque),
    (1, fun h => (h 1).map stVecteur),
    (1, fun h => (h 1).map stEntreprise),
    (1, fun h => setNumCol (h 1) (fun r => r.impactAriary)
      (fun r v => { r with impactAriary := v })),
    (1, fun h => setNumCol (h 1) (fun r => r.indispoHeures)
      (fun r v => { r with indispoHeures := v })),
    (1, fun h => setNumCol (h 1) (fun r => r.taille)
      (fun r v => { r with taille := v })) ]

/-- The statements of `clean_logins` on a non-empty frame. -/
def cleanLoginsProg : List (Stmt LogRow) :=
  [ (1, fun h => h 0),
    (1, fun h => (h 1).map stResultat),
    (1, fun h => (h 1).map stLocalisation),
    (1, fun h => (h 1).map stRole),
    (1, fun h => (h 1).map stUtilisateur),
    (1, fun h => (h 1).map stIPSource) ]

/-- Initial heap: the caller frame at address 0, every other address
unallocated (empty). -/
def initHeap {α : Type} (df : List α) : Heap α :=
  fun n => if n = 0 then df else []

/-- The heap after a call `clean_incidents(df)`: the empty branch runs no
statement at all. -/
def cleanIncidentsHeap (df : List IncRow) : Heap IncRow :=
  if df = [] then initHeap df else runProg cleanIncidentsProg (initHeap df)

/-- The heap after a call `clean_logins(df)`. -/
def cleanLoginsHeap (df : List LogRow) : Heap LogRow :=
  if df = [] then initHeap df else runProg cleanLoginsProg (initHeap df)

/-- Address of the frame returned by `clean_incidents`: the argument
itself when empty, the copy otherwise. -/
def cleanResultAddr {α : Type} [DecidableEq α] (df : List α) : Nat :=
  if df = [] then 0 else 1

/-! ## m3 / m6 load cleaning

Both scripts load the two CSVs, drop rows whose critical columns are null
(`Date`/`Entreprise` for incidents, `DateHeure`/`Utilisateur` for logins)
and standardize `Resultat` with `fillna("unknown").str.lower().str.strip()`. -/

/-- An incidents row after the m3/m6 load: `Date` and `Entreprise` are
known to be present. -/
structure IncRowC where
  entreprise : String
  date : ℚ
  secteur : Option String
  taille : Option ℚ
  typeAttaque : Option String
  vecteur : Option String
  impactAriary : Option ℚ
  indispoHeures : Option ℚ
  deriving DecidableEq, Repr

/-- A logins row after the m3/m6 load: `DateHeure` and `Utilisateur`
present, `Resultat` standardized; the other columns still nullable. -/
structure LogRowC where
  utilisateur : String
  dateHeure : ℚ
  resultat : String
  role : Option String
  departement : Option String
  ipSource : Option String
  localisation : Option String
  deriving DecidableEq, Repr

/-- m3/m6 `inc.dropna(subset=["Date", "Entreprise"])`. -/
def loadCleanIncidents (inc : List IncRow) : List IncRowC :=
  inc.filterMap (fun r =>
    match r.date, r.entreprise with
    | some d, some e =>
      some { entreprise := e, date := d, secteur := r.secteur,
             taille := r.taille, typeAttaque := r.typeAttaque,
             vecteur := r.vecteur, impactAriary := r.impactAriary,
             indispoHeures := r.indispoHeures }
    | _, _ => none)

/-- m3/m6 `log.dropna(subset=["DateHeure", "Utilisateur"])` followed by
`log["Resultat"] = log["Resultat"].fillna("unknown").str.lower().str.strip()`. -/
def loadCleanLogins (log : List LogRow) : List LogRowC :=
  log.filterMap (fun r =>
    match r.dateHeure, r.utilisateur with
    | some d, some u =>
      some { utilisateur := u, dateHeure := d,
             resultat := pyStrip (pyLower (r.resultat.getD "unknown")),
             role := r.role, departement := r.departement,
             ipSource := r.ipSource, localisation := r.localisation }
    | _, _ => none)

/-- A logins row after the user-feature fills (`Localisation` filled with
"Unknown", `IPSource` with "0.0.0.0", `Role` and `Departement` with
"Unknown").  m6 applies these fills during the load, m3 inside its user
segmentation section, with the same constants. -/
structure M6Row where
  utilisateur : String
  role : String
  departement : String
  dateHeure : ℚ
  ipSource : String
  localisation : String
  resultat : String
  deriving DecidableEq, Repr

/-- The shared fill step producing a fully non-null logins row. -/
def fillLogRow (r : LogRowC) : M6Row :=
  { utilisateur := r.utilisateur, dateHeure := r.dateHeure,
    resultat := r.resultat,
    localisation := r.localisation.getD "Unknown",
    ipSource := r.ipSource.getD "0.0.0.0",
    role := r.role.getD "Unknown",
    departement := r.departement.getD "Unknown" }

/-- `log["is_fail"] = log["Resultat"].isin(["échec", "failure", "fail"])` -/
def isFailRes (s : String) : Bool :=
  s == "échec" || s == "failure" || s == "fail"

/-- `log["is_succ"] = log["Resultat"].isin(["succès", "success"])` -/
def isSuccRes (s : String) : Bool :=
  s == "succès" || s == "success"

/-! ## m3 enterprise aggregation -/

/-- The row-level effect of the m3 fills before the enterprise
aggregation (lines 44 to 48): `ImpactAriary`, `IndispoHeures` with 0,
`TypeAttaque` with "unknown", `Secteur` with "Unknown", `Taille` with
the column median `tMed`. -/
def m3FillRow (tMed : Option ℚ) (r : IncRowC) : IncRowC :=
  { r with impactAriary := some (r.impactAriary.getD 0),
           indispoHeures := some (r.indispoHeures.getD 0),
           typeAttaque := some (r.typeAttaque.getD "unknown"),
           secteur := some (r.secteur.getD "Unknown"),
           taille := fillWith tMed r.taille }

/-- m3 fills before the enterprise aggregation. -/
def m3FillInc (df : List IncRowC) : List IncRowC :=
  df.map (m3FillRow (medianQ (df.filterMap (fun r => r.taille))))

/-- One row of m3s `agg_ent` table. -/
structure AggEnt where
  entreprise : String
  freq : Nat
  impactMoy : ℚ
  indispoMoy : ℚ
  nbTypes : Nat
  secteur : String
  taille : ℚ
  deriving DecidableEq, Repr

/-- The aggregated row of one enterprise: `size`, `mean` (pandas mean
skips nulls), `nunique` (skips nulls), `first` (first non-null); the
`agg_ent.fillna(0)` that follows the aggregation is the final `getD 0`. -/
def aggEntOf (df : List IncRowC) (e : String) : AggEnt :=
  let rs := df.filter (fun r => r.entreprise == e)
  { entreprise := e,
    freq := rs.length,
    impactMoy := (colMean (rs.map (fun r => r.impactAriary))).getD 0,
    indispoMoy := (colMean (rs.map (fun r => r.indispoHeures))).getD 0,
    nbTypes := ((rs.filterMap (fun r => r.typeAttaque)).dedup).length,
    secteur := ((rs.filterMap (fun r => r.secteur)).head?).getD "",
    taille := ((rs.filterMap (fun r => r.taille)).head?).getD 0 }

/-- m3 `agg_ent = inc.groupby("Entreprise").agg(...).reset_index()`:
one row per distinct enterprise. -/
def aggEntTable (df : List IncRowC) : List AggEnt :=
  ((df.map (fun r => r.entreprise)).dedup).map (aggEntOf df)

/-! ## m3 / m6 per-user aggregation -/

/-- The groupby key `["Utilisateur", "Role", "Departement"]`. -/
def userKey (r : M6Row) : String × String × String :=
  (r.utilisateur, r.role, r.departement)

/-- One row of m3s `agg_user` table. -/
structure AggUser where
  utilisateur : String
  role : String
  departement : String
  nbEchecs : Nat
  nbSucces : Nat
  nbTotal : Nat
  nbPays : Nat
  nbIp : Nat
  ratioEchec : ℚ
  deriving DecidableEq, Repr

/-- The m3 aggregated row of one user group; `ratio_echec` is the guarded
`np.where(nb_total > 0, nb_echecs / nb_total, 0)`. -/
def m3AggUserOf (logs : List M6Row) (k : String × String × String) : AggUser :=
  let rs := logs.filter (fun r => userKey r == k)
  let nbEchecs := (rs.filter (fun r => isFailRes r.resultat)).length
  let nbTotal := rs.length
  { utilisateur := k.1, role := k.2.1, departement := k.2.2,
    nbEchecs := nbEchecs,
    nbSucces := (rs.filter (fun r => isSuccRes r.resultat)).length,
    nbTotal := nbTotal,
    nbPays := ((rs.map (fun r => r.localisation)).dedup).length,
    nbIp := ((rs.map (fun r => r.ipSource)).dedup).length,
    ratioEchec := if 0 < nbTotal then (nbEchecs : ℚ) / (nbTotal : ℚ) else 0 }

/-- m3 `agg_user = log.groupby(["Utilisateur","Role","Departement"]).agg(...)`. -/
def m3AggUserTable (logs : List M6Row) : List AggUser :=
  ((logs.map userKey).dedup).map (m3AggUserOf logs)

/-! ## m6 compromised-login labelling -/

/-- m6 `compromised_row`: 0 when there is no previous attempt of the same
user; otherwise 1 exactly when the previous attempt failed, the current
one succeeded from a different source IP, and the gap is at most one hour
(`dt = (DateHeure - Date_prev).total_seconds() / 3600 <= 1.0`). -/
def compromised_row (prev : Option M6Row) (cur : M6Row) : Nat :=
  match prev with
  | none => 0
  | some p =>
    let dt := (cur.dateHeure - p.dateHeure) / 3600
    if isFailRes p.resultat && isSuccRes cur.resultat
        && p.ipSource != cur.ipSource && decide (dt ≤ 1) then 1 else 0

/-- The per-row `compromis_signal` column over a frame sorted by
`["Utilisateur", "DateHeure"]`: `groupby("Utilisateur").shift(1)` hands
each row its predecessor when that predecessor belongs to the same user
(groups are contiguous in the sorted frame), and nothing otherwise. -/
def m6Signals : Option M6Row → List M6Row → List Nat
  | _, [] => []
  | prev, c :: cs =>
    let p := match prev with
      | some q => if q.utilisateur = c.utilisateur then some q else none
      | none => none
    compromised_row p c :: m6Signals (some c) cs

/-- m6 `log = log.sort_values(["Utilisateur", "DateHeure"])`. -/
def m6SortLe (a b : M6Row) : Prop :=
  a.utilisateur < b.utilisateur ∨
    (a.utilisateur = b.utilisateur ∧ a.dateHeure ≤ b.dateHeure)

instance : DecidableRel m6SortLe := fun a b => by
  unfold m6SortLe; infer_instance

/-- The logins frame sorted by `["Utilisateur", "DateHeure"]`. -/
def m6Sorted (logs : List M6Row) : List M6Row :=
  logs.insertionSort m6SortLe

/-- The sorted logins frame together with its `compromis_signal` column. -/
def m6Annotated (logs : List M6Row) : List (M6Row × Nat) :=
  (m6Sorted logs).zip (m6Signals none (m6Sorted logs))

/-- One row of m6s `agg_user` table. -/
structure M6AggUser where
  utilisateur : String
  role : String
  departement : String
  nbEchecs : Nat
  nbTotal : Nat
  nbIp : Nat
  nbPays : Nat
  nbCompromis : Nat
  ratioEchec : ℚ
  yCompromis : Nat
  deriving DecidableEq, Repr

/-- The m6 aggregated row of one user group, including the summed
compromise signal and the derived label `y_compromis`. -/
def m6AggUserOf (ann : List (M6Row × Nat)) (k : String × String × String) :
    M6AggUser :=
  let rs := ann.filter (fun p => userKey p.1 == k)
  let nbEchecs := (rs.filter (fun p => isFailRes p.1.resultat)).length
  let nbTotal := rs.length
  let nbCompromis := (rs.map (fun p => p.2)).sum
  { utilisateur := k.1, role := k.2.1, departement := k.2.2,
    nbEchecs := nbEchecs,
    nbTotal := nbTotal,
    nbIp := ((rs.map (fun p => p.1.ipSource)).dedup).length,
    nbPays := ((rs.map (fun p => p.1.localisation)).dedup).length,
    nbCompromis := nbCompromis,
    ratioEchec := if 0 < nbTotal then (nbEchecs : ℚ) / (nbTotal : ℚ) else 0,
    yCompromis := if 0 < nbCompromis then 1 else 0 }

/-- m6 `agg_user` over the annotated frame. -/
def m6AggUserTable (logs : List M6Row) : List M6AggUser :=
  let ann := m6Annotated logs
  ((ann.map (fun p => userKey p.1)).dedup).map (m6AggUserOf ann)

/-! ## Script-level models: console messages and file writes

Each script run is modelled as the list of observable events it produces:
console messages (abbreviated ASCII forms of the source strings) and file
writes (file name and number of data rows written; 0 both for an empty
table and for a non-tabular artifact).  An exception raised by a library
call inside a `try` block is modelled by a boolean flag; the load outcome
is a dedicated type since every load is wrapped in its own handler. -/

inductive Ev where
  | msg (s : String)
  | write (file : String) (rows : Nat)
  deriving DecidableEq, Repr

/-- The file writes among a list of events. -/
def writesOf (evs : List Ev) : List (String × Nat) :=
  evs.filterMap (fun e =>
    match e with
    | Ev.write f n => some (f, n)
    | Ev.msg _ => none)

/-- The names of the files written. -/
def fileNamesOf (evs : List Ev) : List String :=
  (writesOf evs).map (fun p => p.1)

/-- Outcome of loading `incidents.csv` and `logins.csv`: both parsed, a
`FileNotFoundError`, or any other exception. -/
inductive LoadRes where
  | ok (inc : List IncRow) (log : List LogRow)
  | fileNotFound
  | otherErr
  deriving DecidableEq, Repr

/-! ### m3 segmentation script -/

/-- m3 `load_and_clean_data`: the cleaned frames, a pair of empty frames
on any exception. -/
def m3LoadFrames : LoadRes → List IncRowC × List M6Row
  | LoadRes.ok inc log =>
    (loadCleanIncidents inc, (loadCleanLogins log).map fillLogRow)
  | LoadRes.fileNotFound => ([], [])
  | LoadRes.otherErr => ([], [])

/-- The console output of m3 `load_and_clean_data`. -/
def m3LoadEvents : LoadRes → List Ev
  | LoadRes.ok inc log =>
    (if inc = [] then [] else [Ev.msg "Loaded incidents after cleaning"]) ++
    (if log = [] then [] else [Ev.msg "Loaded login records after cleaning"])
  | LoadRes.fileNotFound => [Ev.msg "Erreur: Fichier non trouve"]
  | LoadRes.otherErr => [Ev.msg "Erreur lors du chargement"]

/-- The enterprise segmentation section of m3 (lines 41 to 104):
`entRaises` models an exception anywhere inside the `try` block
(aggregation, scaling, KMeans, PCA or the save itself). -/
def m3EntSection (inc : List IncRowC) (entRaises : Bool) : List Ev :=
  if inc = [] then
    [Ev.msg "Aucune donnee incident disponible",
     Ev.write "segments_entreprises.csv" 0]
  else if entRaises then
    [Ev.msg "Erreur lors de la segmentation des entreprises",
     Ev.write "segments_entreprises.csv" 0]
  else
    let table := aggEntTable (m3FillInc inc)
    if 3 ≤ table.length then
      [Ev.msg "Segments entreprises",
       Ev.write "segments_entreprises.csv" table.length,
       Ev.msg "Segments entreprises sauvegardes"]
    else
      [Ev.msg "Pas assez de donnees entreprises",
       Ev.write "segments_entreprises.csv" 0]

/-- The user segmentation section of m3 (lines 107 to 173). -/
def m3UserSection (log : List M6Row) (userRaises : Bool) : List Ev :=
  if log = [] then
    [Ev.msg "Aucune donnee de login disponible",
     Ev.write "segments_utilisateurs.csv" 0]
  else if userRaises then
    [Ev.msg "Erreur lors de la segmentation des utilisateurs",
     Ev.write "segments_utilisateurs.csv" 0]
  else
    let table := m3AggUserTable log
    if 4 ≤ table.length then
      [Ev.msg "Segments utilisateurs",
       Ev.write "segments_utilisateurs.csv" table.length,
       Ev.msg "Segments utilisateurs sauvegardes"]
    else
      [Ev.msg "Pas assez de donnees utilisateurs",
       Ev.write "segments_utilisateurs.csv" 0]

/-- A whole run of the m3 script. -/
def m3Run (res : LoadRes) (entRaises userRaises : Bool) : List Ev :=
  let frames := m3LoadFrames res
  m3LoadEvents res ++ m3EntSection frames.1 entRaises ++
    m3UserSection frames.2 userRaises

/-- Did the m3 enterprise section reach the successful-clustering branch? -/
def m3EntSuccess (res : LoadRes) (entRaises : Bool) : Prop :=
  (m3LoadFrames res).1 ≠ [] ∧ entRaises = false ∧
    3 ≤ (aggEntTable (m3FillInc (m3LoadFrames res).1)).length

/-- Did the m3 user section reach the successful-clustering branch? -/
def m3UserSuccess (res : LoadRes) (userRaises : Bool) : Prop :=
  (m3LoadFrames res).2 ≠ [] ∧ userRaises = false ∧
    4 ≤ (m3AggUserTable (m3LoadFrames res).2).length

/-! ### m2 exploration script -/

/-- Outcome of m2 `run_complete_analysis`: either the whole analysis body
runs, or some step (the `load_data` call included) raises and the single
`except` handler prints.  m2 never writes a file: its charts go through
`plt.show()` and everything else is printed. -/
inductive M2Res where
  | ok (inc : List IncRow) (log : List LogRow)
  | raises
  deriving DecidableEq, Repr

/-- A whole run of m2 `run_complete_analysis`. -/
def m2Run : M2Res → List Ev
  | M2Res.ok _ _ => [Ev.msg "Resume et graphiques affiches"]
  | M2Res.raises =>
    [Ev.msg "Erreur lors de analyse",
     Ev.msg "Verifiez que les fichiers CSV existent"]

/-! ### m5 KPI script -/

/-- m5 `load_data` cleaning of the incidents frame:
`dropna(subset=["Date"])` and `ImpactAriary` filled with 0. -/
def m5CleanInc (inc : List IncRow) : List IncRow :=
  (inc.filter (fun r => r.date.isSome)).map
    (fun r => { r with impactAriary := some (r.impactAriary.getD 0) })

/-- m5 `load_data` cleaning of the logins frame:
`dropna(subset=["DateHeure"])` and `Resultat` standardized. -/
def m5CleanLog (log : List LogRow) : List LogRow :=
  (log.filter (fun r => r.dateHeure.isSome)).map stResultat

/-- A whole run of m5 `run_complete_kpi_analysis`.  The five booleans
abstract the data-availability checks of the individual plot functions
(each one saves its PNG only when it has plottable data); the KPI report
is always exported once the early-return guard is passed. -/
def m5Run (res : LoadRes)
    (hasMonthly hasQuarterly hasFailRate hasSeverity hasVectors : Bool) :
    List Ev :=
  match res with
  | LoadRes.fileNotFound =>
    [Ev.msg "Fichier non trouve", Ev.msg "Aucune donnee disponible"]
  | LoadRes.otherErr =>
    [Ev.msg "Erreur lors du chargement", Ev.msg "Aucune donnee disponible"]
  | LoadRes.ok inc log =>
    if m5CleanInc inc = [] ∧ m5CleanLog log = [] then
      [Ev.msg "Aucune donnee disponible"]
    else
      [Ev.msg "Generation des visualisations KPI"] ++
      (if hasMonthly then [Ev.write "incidents_par_mois.png" 0] else []) ++
      (if hasQuarterly then [Ev.write "impact_trimestriel.png" 0] else []) ++
      (if hasFailRate then [Ev.write "taux_echec_mensuel.png" 0] else []) ++
      (if hasSeverity then [Ev.write "distribution_severite.png" 0] else []) ++
      (if hasVectors then [Ev.write "top_vecteurs_attaque.png" 0] else []) ++
      [Ev.write "rapport_kpi_cybersecurite.txt" 0,
       Ev.msg "Rapport exporte"]

/-! ### m6 prediction script -/

/-- m6 `load_and_clean_data` incidents cleaning: drop null
`Date`/`Entreprise`, fill `ImpactAriary` and `IndispoHeures` with 0. -/
def m6CleanInc (inc : List IncRow) : List IncRowC :=
  (loadCleanIncidents inc).map (fun r =>
    { r with impactAriary := some (r.impactAriary.getD 0),
             indispoHeures := some (r.indispoHeures.getD 0) })

/-- m6 `load_and_clean_data`: cleaned frames, empty on any exception. -/
def m6LoadFrames : LoadRes → List IncRowC × List M6Row
  | LoadRes.ok inc log =>
    (m6CleanInc inc, (loadCleanLogins log).map fillLogRow)
  | LoadRes.fileNotFound => ([], [])
  | LoadRes.otherErr => ([], [])

/-- The console output of m6 `load_and_clean_data`. -/
def m6LoadEvents : LoadRes → List Ev
  | LoadRes.ok inc log =>
    (if inc = [] then [] else [Ev.msg "Loaded incidents after cleaning"]) ++
    (if log = [] then [] else [Ev.msg "Loaded login records after cleaning"])
  | LoadRes.fileNotFound => [Ev.msg "Erreur: Fichier non trouve"]
  | LoadRes.otherErr => [Ev.msg "Erreur lors du chargement"]

/-- The enterprise prediction section of m6 (PARTIE 1, lines 45 to 124):
every branch only prints, no file is ever written. -/
def m6EntSection (inc : List IncRowC) (entRaises : Bool) : List Ev :=
  if 10 ≤ inc.length then
    if entRaises then [Ev.msg "Erreur lors de la prediction entreprises"]
    else [Ev.msg "Resultats prediction entreprises"]
  else [Ev.msg "Donnees insuffisantes pour la prediction entreprises"]

/-- `len(yu.unique()) > 1`: the label column takes both values. -/
def m6HasBothClasses (agg : List M6AggUser) : Bool :=
  1 < ((agg.map (fun r => r.yCompromis)).dedup).length

/-- The user prediction section of m6 (PARTIE 2, lines 127 to 218):
`userRaises` models an exception anywhere inside the `try` block. -/
def m6UserSection (log : List M6Row) (userRaises : Bool) : List Ev :=
  if 10 ≤ log.length then
    if userRaises then
      [Ev.msg "Erreur lors de la prediction utilisateurs",
       Ev.write "risque_utilisateur.csv" 0]
    else
      let agg := m6AggUserTable log
      if 10 ≤ agg.length then
        if m6HasBothClasses agg && 10 ≤ agg.length then
          [Ev.msg "Resultats prediction utilisateurs",
           Ev.write "risque_utilisateur.csv" agg.length,
           Ev.msg "Scores de risque ecrits"]
        else
          [Ev.msg "Donnees insuffisantes ou une seule classe",
           Ev.write "risque_utilisateur.csv" 0]
      else
        [Ev.msg "Pas assez de utilisateurs",
         Ev.write "risque_utilisateur.csv" 0]
  else
    [Ev.msg "Donnees insuffisantes pour la prediction utilisateurs",
     Ev.write "risque_utilisateur.csv" 0]

/-- A whole run of the m6 script. -/
def m6Run (res : LoadRes) (entRaises userRaises : Bool) : List Ev :=
  let frames := m6LoadFrames res
  m6LoadEvents res ++ m6EntSection frames.1 entRaises ++
    m6UserSection frames.2 userRaises

/-! ### Writes of the remaining scripts -/

/-- `incidents.py` writes the generated incidents table. -/
def incidentsScriptWrites : List String := ["incidents.csv"]

/-- `login.py` writes the generated logins table. -/
def loginScriptWrites : List String := ["logins.csv"]

/-- `m4.py` (profiling) only prints; it writes no file. -/
def m4Writes : List String := []

/-- `m7.py` (streamlit dashboard) renders widgets; it writes no file. -/
def m7Writes : List String := []

/-- The four generators under `data/Script` write one Excel file each. -/
def dataScriptWrites : List String :=
  ["customer_feedback.xlsx", "customers_data_extended.xlsx",
   "marketing_data_extended.xlsx", "sales_data_extended.xlsx"]

/-- `data_exploration.py` saves one chart. -/
def dataExplorationWrites : List String := ["age_distribution.png"]

/-- `segmentation_client.py` clusters in memory; it writes no file. -/
def segmentationClientWrites : List String := []

/-- Python `str.endswith` on the character lists of the two strings. -/
def strEndsWith (s suf : String) : Bool :=
  decide (suf.data = s.data.drop (s.data.length - suf.data.length))

/-- The spec sentence of the interface section: every output file is a
CSV, Excel or PNG file. -/
def specAllowedExt (f : String) : Bool :=
  strEndsWith f ".csv" || strEndsWith f ".xlsx" || strEndsWith f ".xls" ||
    strEndsWith f ".png"

/-- The amended list of output kinds: CSV, Excel, PNG or plain text. -/
def amendedAllowedExt (f : String) : Bool :=
  specAllowedExt f || strEndsWith f ".txt"

/-! ## Sample rows used by concrete witnesses -/

/-- A sample raw incidents row with a negative impact and a negative
size. -/
def c3SampleRaw : IncRow :=
  { entreprise := some "Acme", secteur := none, taille := some (-2),
    typeAttaque := none, date := some 0, vecteur := none,
    impactAriary := some (-5), indispoHeures := some 3,
    donneesCompromises := none, campagneSecurite := none }

/-- The row `clean_incidents` produces from `c3SampleRaw`. -/
def c3SampleCleaned : IncRow :=
  { entreprise := some "Acme", secteur := some "Unknown", taille := none,
    typeAttaque := some "unknown", date := some 0,
    vecteur := some "unknown", impactAriary := none,
    indispoHeures := some 3, donneesCompromises := none,
    campagneSecurite := none }

/-- A sample logins row whose result is a failure. -/
def c5SampleRow : LogRow :=
  { utilisateur := some "alice", role := none, departement := none,
    dateHeure := some 0, ipSource := none, localisation := none,
    resultat := some "échec" }

/-- A sample cleaned incidents row. -/
def c4SampleRow : IncRowC :=
  { entreprise := "Acme", date := 0, secteur := some "Finance",
    taille := some 100, typeAttaque := some "phishing",
    vecteur := some "email", impactAriary := some 5,
    indispoHeures := none }

/-- A sample cleaned logins row. -/
def m6SampleRow : M6Row :=
  { utilisateur := "alice", role := "Admin", departement := "IT",
    dateHeure := 0, ipSource := "1.2.3.4", localisation := "France",
    resultat := "échec" }

/-- A sample raw incidents row with a present date, used to drive m5
past its early-return guard. -/
def c6SampleInc : IncRow :=
  { entreprise := some "Acme", secteur := none, taille := none,
    typeAttaque := none, date := some 0, vecteur := none,
    impactAriary := none, indispoHeures := none,
    donneesCompromises := none, campagneSecurite := none }


/-! # Theorems -/

/-! ## Helper lemmas on the column utilities -/

/-- Reading with default 0 from a list of non-negatives is non-negative. -/
theorem getD_zero_nonneg (l : List ℚ) (hl : ∀ x ∈ l, 0 ≤ x) (i : Nat) :
    0 ≤ l.getD i 0 := by
  induction l generalizing i with
  | nil => simp [List.getD]
  | cons a t ih =>
    cases i with
    | zero => simpa using hl a (by simp)
    | succ j =>
      simp only [List.getD_cons_succ]
      exact ih (fun x hx => hl x (by simp [hx])) j

/-- The median of a list of non-negative rationals is non-negative. -/
theorem medianQ_nonneg (l : List ℚ) (hl : ∀ x ∈ l, 0 ≤ x) (m : ℚ)
    (hm : medianQ l = some m) : 0 ≤ m := by
  have hs : ∀ x ∈ l.insertionSort (· ≤ ·), 0 ≤ x := fun x hx =>
    hl x ((List.mem_insertionSort _).mp hx)
  simp only [medianQ] at hm
  by_cases h0 : (l.insertionSort (· ≤ ·)).length = 0
  · rw [if_pos h0] at hm
    exact absurd hm (by simp)
  · rw [if_neg h0] at hm
    by_cases h1 : (l.insertionSort (· ≤ ·)).length % 2 = 1
    · rw [if_pos h1, Option.some.injEq] at hm
      subst hm
      exact getD_zero_nonneg _ hs _
    · rw [if_neg h1, Option.some.injEq] at hm
      subst hm
      have n1 := getD_zero_nonneg _ hs
        ((l.insertionSort (· ≤ ·)).length / 2 - 1)
      have n2 := getD_zero_nonneg _ hs ((l.insertionSort (· ≤ ·)).length / 2)
      positivity

/-- A value surviving the negative mask is non-negative. -/
theorem maskNeg_nonneg (v : Option ℚ) (x : ℚ) (h : maskNeg v = some x) :
    0 ≤ x := by
  cases v with
  | none => simp [maskNeg] at h
  | some y =>
    simp only [maskNeg] at h
    by_cases hy : y < 0
    · simp [hy] at h
    · rw [if_neg hy, Option.some.injEq] at h
      cases h
      exact le_of_not_lt hy

/-- Every present value of an m2-cleaned numeric column is non-negative. -/
theorem cleanNumCol_nonneg (xs : List (Option ℚ)) (v : Option ℚ)
    (hv : v ∈ cleanNumCol xs) (x : ℚ) (hx : v = some x) : 0 ≤ x := by
  subst hx
  simp only [cleanNumCol, List.mem_map] at hv
  obtain ⟨w, hw, hfill⟩ := hv
  obtain ⟨u, _, rfl⟩ := hw
  have hmed : ∀ y, medianQ ((xs.map maskNeg).filterMap id) = some y →
      0 ≤ y := by
    intro y hy
    refine medianQ_nonneg _ ?_ y hy
    intro z hz
    obtain ⟨w2, hw2, hid⟩ := List.mem_filterMap.mp hz
    obtain ⟨u2, _, rfl⟩ := List.mem_map.mp hw2
    exact maskNeg_nonneg u2 z (by simpa using hid)
  cases hmn : maskNeg u with
  | some y =>
    rw [hmn] at hfill
    simp only [fillWith] at hfill
    cases hfill
    exact maskNeg_nonneg u x hmn
  | none =>
    rw [hmn] at hfill
    simp only [fillWith] at hfill
    exact hmed x hfill

/-- Shape of membership in a column-rewritten frame. -/
theorem mem_setNumCol {α : Type} (df : List α) (g : α → Option ℚ)
    (s : α → Option ℚ → α) (r : α) (hr : r ∈ setNumCol df g s) :
    ∃ r0 v, r0 ∈ df ∧ v ∈ cleanNumCol (df.map g) ∧ r = s r0 v := by
  simp only [setNumCol, List.mem_map] at hr
  obtain ⟨p, hp, rfl⟩ := hr
  have h2 := List.of_mem_zip hp
  exact ⟨p.1, p.2, h2.1, h2.2, rfl⟩

/-! ## Claim C3 -/

/-- Claim C3: for every incidents frame, every value present in the
numeric columns `ImpactAriary`, `IndispoHeures` and `Taille` of the
output of `clean_incidents` is either null or non-negative: negatives
are first replaced by null, then nulls are filled with the median of the
remaining non-negative values of the column. -/
theorem c3_clean_incidents_numeric_nonneg (df : List IncRow) (r : IncRow)
    (hr : r ∈ cleanIncidents df) :
    (∀ x, r.impactAriary = some x → 0 ≤ x) ∧
    (∀ x, r.indispoHeures = some x → 0 ≤ x) ∧
    (∀ x, r.taille = some x → 0 ≤ x) := by
  by_cases hdf : df = []
  · subst hdf
    simp [cleanIncidents] at hr
  · rw [cleanIncidents, if_neg hdf] at hr
    simp only [cleanIncidentsBody] at hr
    obtain ⟨r6, v7, h6, hv7, rfl⟩ := mem_setNumCol _ _ _ _ hr
    obtain ⟨r5, v6, h5, hv6, rfl⟩ := mem_setNumCol _ _ _ _ h6
    obtain ⟨r4, v5, _, hv5, rfl⟩ := mem_setNumCol _ _ _ _ h5
    refine ⟨?_, ?_, ?_⟩
    · intro x hx
      exact cleanNumCol_nonneg _ _ hv5 x hx
    · intro x hx
      exact cleanNumCol_nonneg _ _ hv6 x hx
    · intro x hx
      exact cleanNumCol_nonneg _ _ hv7 x hx

/-- Witness for claim C3 at a concrete one-row frame. -/
theorem c3_clean_incidents_numeric_nonneg_witness :
    (c3SampleCleaned ∈ cleanIncidents [c3SampleRaw]) ∧
    ((∀ x, c3SampleCleaned.impactAriary = some x → 0 ≤ x) ∧
     (∀ x, c3SampleCleaned.indispoHeures = some x → 0 ≤ x) ∧
     (∀ x, c3SampleCleaned.taille = some x → 0 ≤ x)) :=
  ⟨by decide,
   c3_clean_incidents_numeric_nonneg [c3SampleRaw] c3SampleCleaned
     (by decide)⟩

/-! ## Claim C10 -/

/-- A straight-line program that never writes address 0 leaves the frame
at address 0 untouched. -/
theorem runProg_preserves_zero {α : Type} (prog : List (Stmt α))
    (hp : ∀ st ∈ prog, st.1 ≠ 0) (h : Heap α) :
    runProg prog h 0 = h 0 := by
  induction prog generalizing h with
  | nil => rfl
  | cons st rest ih =>
    have h1 : writeStmt h st 0 = h 0 := by
      have hne : (0 : Nat) ≠ st.1 := fun he => hp st (by simp) he.symm
      simp [writeStmt, hne]
    have h2 : runProg (st :: rest) h = runProg rest (writeStmt h st) := rfl
    rw [h2, ih (fun s hs => hp s (by simp [hs])) _, h1]

/-- Every statement of the `clean_incidents` body writes the copy. -/
theorem cleanIncidentsProg_no_zero :
    ∀ st ∈ cleanIncidentsProg, st.1 ≠ 0 := by
  intro st hst
  simp only [cleanIncidentsProg, List.mem_cons, List.not_mem_nil,
    or_false] at hst
  rcases hst with rfl | rfl | rfl | rfl | rfl | rfl | rfl | rfl <;> simp

/-- Every statement of the `clean_logins` body writes the copy. -/
theorem cleanLoginsProg_no_zero :
    ∀ st ∈ cleanLoginsProg, st.1 ≠ 0 := by
  intro st hst
  simp only [cleanLoginsProg, List.mem_cons, List.not_mem_nil,
    or_false] at hst
  rcases hst with rfl | rfl | rfl | rfl | rfl | rfl <;> simp

/-- Claim C10: `clean_incidents` and `clean_logins` never mutate the
frame passed to them (the caller object at address 0 holds its original
value after the call, every write going to the `df.copy()` at address 1),
and each returns an empty argument unchanged.  The last two conjuncts tie
the heap programs to the pure functions used elsewhere. -/
theorem c10_clean_functions_no_mutation (dfI : List IncRow)
    (dfL : List LogRow) :
    cleanIncidentsHeap dfI 0 = dfI ∧
    cleanLoginsHeap dfL 0 = dfL ∧
    cleanIncidents ([] : List IncRow) = [] ∧
    cleanLogins ([] : List LogRow) = [] ∧
    cleanIncidentsHeap dfI (cleanResultAddr dfI) = cleanIncidents dfI ∧
    cleanLoginsHeap dfL (cleanResultAddr dfL) = cleanLogins dfL := by
  refine ⟨?_, ?_, rfl, rfl, ?_, ?_⟩
  · by_cases h : dfI = []
    · simp [cleanIncidentsHeap, h, initHeap]
    · rw [cleanIncidentsHeap, if_neg h,
        runProg_preserves_zero _ cleanIncidentsProg_no_zero]
      simp [initHeap]
  · by_cases h : dfL = []
    · simp [cleanLoginsHeap, h, initHeap]
    · rw [cleanLoginsHeap, if_neg h,
        runProg_preserves_zero _ cleanLoginsProg_no_zero]
      simp [initHeap]
  · by_cases h : dfI = []
    · simp [cleanIncidentsHeap, cleanResultAddr, cleanIncidents, h,
        initHeap]
    · rw [cleanIncidentsHeap, if_neg h, cleanResultAddr, if_neg h,
        cleanIncidents, if_neg h]
      rfl
  · by_cases h : dfL = []
    · simp [cleanLoginsHeap, cleanResultAddr, cleanLogins, h, initHeap]
    · rw [cleanLoginsHeap, if_neg h, cleanResultAddr, if_neg h,
        cleanLogins, if_neg h]
      rfl

/-! ## Claim C5 -/

/-- Claim C5: `calculate_failure_rate` returns 0.0 when the logins frame
is absent, empty, lacks the `Resultat` column, or has no valid row
(non-null and different from "unknown"); otherwise it returns the
fraction of valid rows equal to "échec"; the result always lies in
[0, 1]. -/
theorem c5_calculate_failure_rate (st : LoginsState) :
    (0 ≤ calculate_failure_rate st ∧ calculate_failure_rate st ≤ 1) ∧
    calculate_failure_rate LoginsState.noFrame = 0 ∧
    (∀ hasR rows, st = LoginsState.frame hasR rows →
      (rows = [] ∨ hasR = false ∨ validResults rows = []) →
      calculate_failure_rate st = 0) ∧
    (∀ rows, st = LoginsState.frame true rows → validResults rows ≠ [] →
      calculate_failure_rate st =
        (((validResults rows).filter (fun s => s == "échec")).length : ℚ) /
          ((validResults rows).length : ℚ)) := by
  have hb : ∀ (valid : List String), valid ≠ [] →
      (0 : ℚ) ≤ ((valid.filter (fun s => s == "échec")).length : ℚ) /
          ((valid.length : ℚ)) ∧
        ((valid.filter (fun s => s == "échec")).length : ℚ) /
          ((valid.length : ℚ)) ≤ 1 := by
    intro valid hne
    have hlen : 0 < valid.length := List.length_pos.mpr hne
    constructor
    · apply div_nonneg <;> positivity
    · rw [div_le_one (by exact_mod_cast hlen)]
      exact_mod_cast List.length_filter_le _ valid
  refine ⟨?_, rfl, ?_, ?_⟩
  · cases st with
    | noFrame => simp [calculate_failure_rate]
    | frame hasR rows =>
      by_cases h1 : rows = []
      · simp [calculate_failure_rate, h1]
      · by_cases h2 : hasR = false
        · simp [calculate_failure_rate, h1, h2]
        · by_cases h3 : validResults rows = []
          · simp [calculate_failure_rate, h1, h2, h3]
          · have := hb (validResults rows) h3
            simp only [calculate_failure_rate]
            rw [if_neg h1, if_neg h2, if_neg h3]
            exact this
  · intro hasR rows hst hcase
    subst hst
    rcases hcase with h | h | h
    · simp [calculate_failure_rate, h]
    · subst h
      by_cases h1 : rows = [] <;>
        simp [calculate_failure_rate, h1]
    · simp only [calculate_failure_rate]
      by_cases h1 : rows = []
      · rw [if_pos h1]
      · rw [if_neg h1]
        by_cases h2 : hasR = false
        · rw [if_pos h2]
        · rw [if_neg h2, if_pos h]
  · intro rows hst hne
    subst hst
    have h1 : rows ≠ [] := by
      intro h
      exact hne (by simp [validResults, h])
    simp only [calculate_failure_rate]
    rw [if_neg h1, if_neg (by simp : ¬(true = false)), if_neg hne]

/-- Witness for claim C5 at a concrete one-row frame. -/
theorem c5_calculate_failure_rate_witness :
    calculate_failure_rate (LoginsState.frame true [c5SampleRow]) =
      (((validResults [c5SampleRow]).filter
          (fun s => s == "échec")).length : ℚ) /
        ((validResults [c5SampleRow]).length : ℚ) :=
  (c5_calculate_failure_rate
    (LoginsState.frame true [c5SampleRow])).2.2.2 [c5SampleRow] rfl
    (by decide)

/-! ## Claim C9 -/

/-- Bounds of a count ratio. -/
theorem ratio_bounds (a b : Nat) (hab : a ≤ b) (hb : 0 < b) :
    0 ≤ (a : ℚ) / (b : ℚ) ∧ (a : ℚ) / (b : ℚ) ≤ 1 := by
  constructor
  · positivity
  · rw [div_le_one (by exact_mod_cast hb)]
    exact_mod_cast hab

/-- Claim C9: in the per-user aggregations of m3 and m6, every group has
`nb_total` at least 1, the guard of `ratio_echec` is satisfied so the
division never divides by zero, and `0 ≤ ratio_echec = nb_echecs /
nb_total ≤ 1` since `nb_echecs` never exceeds `nb_total`. -/
theorem c9_agg_user_ratio_guarded (logs3 logs6 : List M6Row) :
    (∀ row ∈ m3AggUserTable logs3,
      1 ≤ row.nbTotal ∧ row.nbEchecs ≤ row.nbTotal ∧
      row.ratioEchec = (row.nbEchecs : ℚ) / (row.nbTotal : ℚ) ∧
      0 ≤ row.ratioEchec ∧ row.ratioEchec ≤ 1) ∧
    (∀ row ∈ m6AggUserTable logs6,
      1 ≤ row.nbTotal ∧ row.nbEchecs ≤ row.nbTotal ∧
      row.ratioEchec = (row.nbEchecs : ℚ) / (row.nbTotal : ℚ) ∧
      0 ≤ row.ratioEchec ∧ row.ratioEchec ≤ 1) := by
  constructor
  · intro row hrow
    simp only [m3AggUserTable, List.mem_map] at hrow
    obtain ⟨k, hk, rfl⟩ := hrow
    obtain ⟨r, hr, hkr⟩ := List.mem_map.mp (List.mem_dedup.mp hk)
    have hrs : r ∈ logs3.filter (fun x => userKey x == k) :=
      List.mem_filter.mpr ⟨hr, by simp [hkr]⟩
    have hpos : 0 < (logs3.filter (fun x => userKey x == k)).length :=
      List.length_pos.mpr (List.ne_nil_of_mem hrs)
    have hle := List.length_filter_le (fun r => isFailRes r.resultat)
      (logs3.filter (fun x => userKey x == k))
    simp only [m3AggUserOf]
    refine ⟨hpos, hle, ?_, ?_, ?_⟩
    · rw [if_pos hpos]
    · rw [if_pos hpos]
      exact (ratio_bounds _ _ hle hpos).1
    · rw [if_pos hpos]
      exact (ratio_bounds _ _ hle hpos).2
  · intro row hrow
    simp only [m6AggUserTable, List.mem_map] at hrow
    obtain ⟨k, hk, rfl⟩ := hrow
    obtain ⟨p, hp, hkp⟩ := List.mem_map.mp (List.mem_dedup.mp hk)
    have hps : p ∈ (m6Annotated logs6).filter (fun q => userKey q.1 == k) :=
      List.mem_filter.mpr ⟨hp, by simp [hkp]⟩
    have hpos :
        0 < ((m6Annotated logs6).filter (fun q => userKey q.1 == k)).length :=
      List.length_pos.mpr (List.ne_nil_of_mem hps)
    have hle := List.length_filter_le (fun q => isFailRes q.1.resultat)
      ((m6Annotated logs6).filter (fun q => userKey q.1 == k))
    simp only [m6AggUserOf]
    refine ⟨hpos, hle, ?_, ?_, ?_⟩
    · rw [if_pos hpos]
    · rw [if_pos hpos]
      exact (ratio_bounds _ _ hle hpos).1
    · rw [if_pos hpos]
      exact (ratio_bounds _ _ hle hpos).2

/-! ## Claim C4 -/

/-- Filtering a mapped list on a predicate the map preserves. -/
theorem filter_map_comm {α β : Type} (l : List α) (f : α → β)
    (p : β → Bool) (q : α → Bool) (h : ∀ a, p (f a) = q a) :
    (l.map f).filter p = (l.filter q).map f := by
  rw [List.filter_map]
  exact congrArg (List.map f) (List.filter_congr (fun a _ => h a))

/-- `colMean` over an all-present column built by a map. -/
theorem colMean_map_some {α : Type} (l : List α) (g : α → ℚ) (hl : l ≠ []) :
    (colMean (l.map (fun a => some (g a)))).getD 0 =
      (l.map g).sum / (l.length : ℚ) := by
  have h1 : (l.map (fun a => some (g a))).filterMap id = l.map g := by
    rw [List.filterMap_map]
    exact congr_fun (List.filterMap_eq_map _) l
  have h2 : ¬ (l.map g).length = 0 := by
    simp only [List.length_map]
    exact fun h => hl (List.length_eq_zero.mp h)
  simp only [colMean, h1]
  rw [if_neg h2]
  simp [List.length_map]

/-- Claim C4: for every enterprise appearing in the cleaned incidents
table, the m3 aggregated row has `freq_incidents` equal to its number of
rows, `impact_moy` and `indispo_moy` equal to the means of its
`ImpactAriary` and `IndispoHeures` values with nulls filled with 0, and
`nb_types` equal to the number of distinct `TypeAttaque` values among
its rows (nulls filled with "unknown"). -/
theorem c4_agg_ent_fields (inc : List IncRowC) :
    (∀ e, e ∈ inc.map (fun r => r.entreprise) →
      ∃ row ∈ aggEntTable (m3FillInc inc), row.entreprise = e) ∧
    (∀ row ∈ aggEntTable (m3FillInc inc),
      row.freq =
        (inc.filter (fun r => r.entreprise == row.entreprise)).length ∧
      row.impactMoy =
        ((inc.filter (fun r => r.entreprise == row.entreprise)).map
            (fun r => r.impactAriary.getD 0)).sum /
          ((inc.filter (fun r => r.entreprise == row.entreprise)).length :
            ℚ) ∧
      row.indispoMoy =
        ((inc.filter (fun r => r.entreprise == row.entreprise)).map
            (fun r => r.indispoHeures.getD 0)).sum /
          ((inc.filter (fun r => r.entreprise == row.entreprise)).length :
            ℚ) ∧
      row.nbTypes =
        (((inc.filter (fun r => r.entreprise == row.entreprise)).map
            (fun r => r.typeAttaque.getD "unknown")).dedup).length) := by
  have hkeys : (m3FillInc inc).map (fun r => r.entreprise) =
      inc.map (fun r => r.entreprise) := by
    rw [m3FillInc, List.map_map]
    rfl
  constructor
  · intro e he
    refine ⟨aggEntOf (m3FillInc inc) e,
      List.mem_map.mpr ⟨e, List.mem_dedup.mpr ?_, rfl⟩, rfl⟩
    rw [hkeys]
    exact he
  · intro row hrow
    simp only [aggEntTable, List.mem_map] at hrow
    obtain ⟨e, hk, rfl⟩ := hrow
    have hkm : e ∈ inc.map (fun r => r.entreprise) := by
      rw [← hkeys]
      exact List.mem_dedup.mp hk
    obtain ⟨r0, hr0, her⟩ := List.mem_map.mp hkm
    have hne : inc.filter (fun r => r.entreprise == e) ≠ [] :=
      List.ne_nil_of_mem (List.mem_filter.mpr ⟨hr0, by simp [her]⟩)
    have hcomm : (m3FillInc inc).filter (fun r => r.entreprise == e) =
        (inc.filter (fun r => r.entreprise == e)).map
          (m3FillRow (medianQ (inc.filterMap (fun r => r.taille)))) := by
      rw [m3FillInc]
      exact filter_map_comm _ _ _ _ (fun a => rfl)
    have hent : (aggEntOf (m3FillInc inc) e).entreprise = e := rfl
    refine ⟨?_, ?_, ?_, ?_⟩
    · show (aggEntOf (m3FillInc inc) e).freq = _
      simp only [aggEntOf, hent]
      rw [hcomm, List.length_map]
    · show (aggEntOf (m3FillInc inc) e).impactMoy = _
      simp only [aggEntOf, hent]
      rw [hcomm, List.map_map]
      exact colMean_map_some (inc.filter (fun r => r.entreprise == e))
        (fun r => r.impactAriary.getD 0) hne
    · show (aggEntOf (m3FillInc inc) e).indispoMoy = _
      simp only [aggEntOf, hent]
      rw [hcomm, List.map_map]
      exact colMean_map_some (inc.filter (fun r => r.entreprise == e))
        (fun r => r.indispoHeures.getD 0) hne
    · show (aggEntOf (m3FillInc inc) e).nbTypes = _
      simp only [aggEntOf, hent]
      rw [hcomm, List.filterMap_map]
      congr 2
      exact congr_fun (List.filterMap_eq_map _) _

/-- Witness for claim C4 at a concrete one-row frame. -/
theorem c4_agg_ent_fields_witness :
    ∃ row ∈ aggEntTable (m3FillInc [c4SampleRow]),
      row.entreprise = "Acme" :=
  (c4_agg_ent_fields [c4SampleRow]).1 "Acme" (by decide)

/-! ## Claim C8 -/

/-- The signal column has one entry per login row. -/
theorem m6Signals_length (rows : List M6Row) (prev : Option M6Row) :
    (m6Signals prev rows).length = rows.length := by
  induction rows generalizing prev with
  | nil => rfl
  | cons c cs ih => simp [m6Signals, ih]

/-- The signal of the first row of the frame is built from no
predecessor. -/
theorem m6Signals_get_zero (rows : List M6Row)
    (hs : 0 < (m6Signals none rows).length) :
    (m6Signals none rows).get ⟨0, hs⟩ = 0 := by
  cases rows with
  | nil => exact absurd hs (by simp [m6Signals])
  | cons c cs => rfl

/-- The signal of row `i + 1` is `compromised_row` applied to row `i`
when that row belongs to the same user, and to no predecessor
otherwise. -/
theorem m6Signals_get_succ (rows : List M6Row) (prev : Option M6Row)
    (i : Nat) (h1 : i + 1 < rows.length)
    (h2 : i + 1 < (m6Signals prev rows).length) :
    (m6Signals prev rows).get ⟨i + 1, h2⟩ =
      compromised_row
        (if (rows.get ⟨i, Nat.lt_of_succ_lt h1⟩).utilisateur =
            (rows.get ⟨i + 1, h1⟩).utilisateur
          then some (rows.get ⟨i, Nat.lt_of_succ_lt h1⟩) else none)
        (rows.get ⟨i + 1, h1⟩) := by
  induction rows generalizing prev i with
  | nil => exact absurd h1 (by simp)
  | cons c cs ih =>
    cases i with
    | zero =>
      cases cs with
      | nil => exact absurd h1 (by simp)
      | cons d ds => rfl
    | succ j =>
      have h1b : j + 1 < cs.length := Nat.succ_lt_succ_iff.mp h1
      have h2b : j + 1 < (m6Signals (some c) cs).length := by
        rw [m6Signals_length]
        exact h1b
      exact ih (some c) j h1b h2b

/-- `compromised_row` with a predecessor is 1 exactly under the four
conditions of the m6 proxy label. -/
theorem compromised_row_eq_one_iff (p cur : M6Row) :
    compromised_row (some p) cur = 1 ↔
      (isFailRes p.resultat = true ∧ isSuccRes cur.resultat = true ∧
        p.ipSource ≠ cur.ipSource ∧
        (cur.dateHeure - p.dateHeure) / 3600 ≤ 1) := by
  simp only [compromised_row, Bool.and_eq_true, bne_iff_ne,
    decide_eq_true_eq]
  split
  · rename_i h
    obtain ⟨⟨⟨hA, hB⟩, hC⟩, hD⟩ := h
    simp [hA, hB, hC, hD]
  · rename_i h
    constructor
    · intro h01
      exact absurd h01 (by decide)
    · intro hc
      exact absurd ⟨⟨⟨hc.1, hc.2.1⟩, hc.2.2.1⟩, hc.2.2.2⟩ h

/-- `compromised_row` only takes the values 0 and 1. -/
theorem compromised_row_zero_or_one (prev : Option M6Row) (cur : M6Row) :
    compromised_row prev cur = 0 ∨ compromised_row prev cur = 1 := by
  cases prev with
  | none => exact Or.inl rfl
  | some p =>
    simp only [compromised_row]
    split
    · exact Or.inr rfl
    · exact Or.inl rfl

/-- Claim C8: over the frame sorted by user and date-time, the
`compromis_signal` of a row is 1 exactly when the immediately preceding
row belongs to the same user, was a failure, the current row is a
success from a different source IP, and the gap is at most one hour; the
first row of the frame, and any row opening a new user group, get 0. -/
theorem c8_compromis_signal (logs : List M6Row) :
    (∀ hs : 0 < (m6Signals none (m6Sorted logs)).length,
      (m6Signals none (m6Sorted logs)).get ⟨0, hs⟩ = 0) ∧
    (∀ i, ∀ h1 : i + 1 < (m6Sorted logs).length,
      ∀ h2 : i + 1 < (m6Signals none (m6Sorted logs)).length,
      ((m6Signals none (m6Sorted logs)).get ⟨i + 1, h2⟩ = 1 ↔
        (((m6Sorted logs).get ⟨i, Nat.lt_of_succ_lt h1⟩).utilisateur =
            ((m6Sorted logs).get ⟨i + 1, h1⟩).utilisateur ∧
          isFailRes
            ((m6Sorted logs).get ⟨i, Nat.lt_of_succ_lt h1⟩).resultat =
            true ∧
          isSuccRes ((m6Sorted logs).get ⟨i + 1, h1⟩).resultat = true ∧
          ((m6Sorted logs).get ⟨i, Nat.lt_of_succ_lt h1⟩).ipSource ≠
            ((m6Sorted logs).get ⟨i + 1, h1⟩).ipSource ∧
          (((m6Sorted logs).get ⟨i + 1, h1⟩).dateHeure -
              ((m6Sorted logs).get
                ⟨i, Nat.lt_of_succ_lt h1⟩).dateHeure) / 3600 ≤ 1))) ∧
    (∀ i, ∀ h1 : i + 1 < (m6Sorted logs).length,
      ∀ h2 : i + 1 < (m6Signals none (m6Sorted logs)).length,
      ((m6Sorted logs).get ⟨i, Nat.lt_of_succ_lt h1⟩).utilisateur ≠
          ((m6Sorted logs).get ⟨i + 1, h1⟩).utilisateur →
        (m6Signals none (m6Sorted logs)).get ⟨i + 1, h2⟩ = 0) := by
  refine ⟨m6Signals_get_zero _, ?_, ?_⟩
  · intro i h1 h2
    rw [m6Signals_get_succ _ none i h1 h2]
    by_cases hu : ((m6Sorted logs).get ⟨i, Nat.lt_of_succ_lt h1⟩).utilisateur =
        ((m6Sorted logs).get ⟨i + 1, h1⟩).utilisateur
    · rw [if_pos hu, compromised_row_eq_one_iff]
      constructor
      · intro hc
        exact ⟨hu, hc.1, hc.2.1, hc.2.2.1, hc.2.2.2⟩
      · intro hc
        exact ⟨hc.2.1, hc.2.2.1, hc.2.2.2.1, hc.2.2.2.2⟩
    · rw [if_neg hu]
      simp only [compromised_row]
      constructor
      · intro h01
        exact absurd h01 (by decide)
      · intro hc
        exact absurd hc.1 hu
  · intro i h1 h2 hu
    rw [m6Signals_get_succ _ none i h1 h2, if_neg hu]
    rfl

/-- Witness for claim C9 at a concrete one-row frame. -/
theorem c9_agg_user_ratio_guarded_witness :
    1 ≤ (m3AggUserOf [m6SampleRow] (userKey m6SampleRow)).nbTotal ∧
    (m3AggUserOf [m6SampleRow] (userKey m6SampleRow)).nbEchecs ≤
      (m3AggUserOf [m6SampleRow] (userKey m6SampleRow)).nbTotal ∧
    (m3AggUserOf [m6SampleRow] (userKey m6SampleRow)).ratioEchec =
      ((m3AggUserOf [m6SampleRow] (userKey m6SampleRow)).nbEchecs : ℚ) /
        ((m3AggUserOf [m6SampleRow] (userKey m6SampleRow)).nbTotal : ℚ) ∧
    0 ≤ (m3AggUserOf [m6SampleRow] (userKey m6SampleRow)).ratioEchec ∧
    (m3AggUserOf [m6SampleRow] (userKey m6SampleRow)).ratioEchec ≤ 1 :=
  (c9_agg_user_ratio_guarded [m6SampleRow] []).1
    (m3AggUserOf [m6SampleRow] (userKey m6SampleRow))
    (List.mem_map.mpr ⟨userKey m6SampleRow, by decide, rfl⟩)

/-- Witness for claim C8 at a concrete one-row frame. -/
theorem c8_compromis_signal_witness :
    (m6Signals none (m6Sorted [m6SampleRow])).get ⟨0, by decide⟩ = 0 :=
  (c8_compromis_signal [m6SampleRow]).1 (by decide)

/-! ## Claim C1 -/

/-- The enterprise section of m3 writes its file on every path. -/
theorem m3EntSection_mem (inc : List IncRowC) (b : Bool) :
    ∃ n, Ev.write "segments_entreprises.csv" n ∈ m3EntSection inc b := by
  simp only [m3EntSection]
  split_ifs
  · exact ⟨0, by simp⟩
  · exact ⟨0, by simp⟩
  · exact ⟨(aggEntTable (m3FillInc inc)).length, by simp⟩
  · exact ⟨0, by simp⟩

/-- The user section of m3 writes its file on every path. -/
theorem m3UserSection_mem (log : List M6Row) (b : Bool) :
    ∃ n, Ev.write "segments_utilisateurs.csv" n ∈ m3UserSection log b := by
  simp only [m3UserSection]
  split_ifs
  · exact ⟨0, by simp⟩
  · exact ⟨0, by simp⟩
  · exact ⟨(m3AggUserTable log).length, by simp⟩
  · exact ⟨0, by simp⟩

/-- Off the successful-clustering path, the enterprise section writes an
empty table. -/
theorem m3EntSection_fallback (inc : List IncRowC) (b : Bool)
    (h : ¬(inc ≠ [] ∧ b = false ∧
      3 ≤ (aggEntTable (m3FillInc inc)).length)) :
    Ev.write "segments_entreprises.csv" 0 ∈ m3EntSection inc b := by
  simp only [m3EntSection]
  split_ifs with h1 h2 h3
  · simp
  · simp
  · exact absurd ⟨h1, Bool.not_eq_true _ ▸ h2, h3⟩ h
  · simp

/-- Off the successful-clustering path, the user section writes an empty
table. -/
theorem m3UserSection_fallback (log : List M6Row) (b : Bool)
    (h : ¬(log ≠ [] ∧ b = false ∧ 4 ≤ (m3AggUserTable log).length)) :
    Ev.write "segments_utilisateurs.csv" 0 ∈ m3UserSection log b := by
  simp only [m3UserSection]
  split_ifs with h1 h2 h3
  · simp
  · simp
  · exact absurd ⟨h1, Bool.not_eq_true _ ▸ h2, h3⟩ h
  · simp

/-- Claim C1: on every execution path of the m3 script — successful
clustering, too few rows, load failure of either kind, or an exception
during segmentation — both `segments_entreprises.csv` and
`segments_utilisateurs.csv` are written, with an empty table in every
non-success case. -/
theorem c1_m3_always_writes_both (res : LoadRes)
    (entRaises userRaises : Bool) :
    (∃ n, Ev.write "segments_entreprises.csv" n ∈
      m3Run res entRaises userRaises) ∧
    (∃ n, Ev.write "segments_utilisateurs.csv" n ∈
      m3Run res entRaises userRaises) ∧
    (¬ m3EntSuccess res entRaises →
      Ev.write "segments_entreprises.csv" 0 ∈
        m3Run res entRaises userRaises) ∧
    (¬ m3UserSuccess res userRaises →
      Ev.write "segments_utilisateurs.csv" 0 ∈
        m3Run res entRaises userRaises) := by
  refine ⟨?_, ?_, ?_, ?_⟩
  · obtain ⟨n, hn⟩ := m3EntSection_mem (m3LoadFrames res).1 entRaises
    refine ⟨n, ?_⟩
    simp only [m3Run, List.mem_append]
    exact Or.inl (Or.inr hn)
  · obtain ⟨n, hn⟩ := m3UserSection_mem (m3LoadFrames res).2 userRaises
    refine ⟨n, ?_⟩
    simp only [m3Run, List.mem_append]
    exact Or.inr hn
  · intro h
    have hn := m3EntSection_fallback (m3LoadFrames res).1 entRaises h
    simp only [m3Run, List.mem_append]
    exact Or.inl (Or.inr hn)
  · intro h
    have hn := m3UserSection_fallback (m3LoadFrames res).2 userRaises h
    simp only [m3Run, List.mem_append]
    exact Or.inr hn

/-- Witness for claim C1 on the file-not-found path. -/
theorem c1_m3_always_writes_both_witness :
    (Ev.write "segments_entreprises.csv" 0 ∈
      m3Run LoadRes.fileNotFound false false) ∧
    (Ev.write "segments_utilisateurs.csv" 0 ∈
      m3Run LoadRes.fileNotFound false false) :=
  ⟨(c1_m3_always_writes_both LoadRes.fileNotFound false false).2.2.1
      (by simp [m3EntSuccess, m3LoadFrames]),
   (c1_m3_always_writes_both LoadRes.fileNotFound false false).2.2.2
      (by simp [m3UserSuccess, m3LoadFrames])⟩

/-! ## Claim C2 -/

/-- Counterexample to claim C2 as stated: after a load failure, m2 and
m5 catch and print but write no output file at all, so not every script
in the m2 to m6 pipeline "produces empty fallback files as its
outputs". -/
theorem c2_counterexample_no_fallback_files :
    writesOf (m2Run M2Res.raises) = [] ∧
    writesOf (m5Run LoadRes.fileNotFound false false false false false) =
      [] := by
  decide

/-- Claim C2 (amended): on a load failure every script catches the
exception and prints a console message; m3 then writes its two empty
fallback segment files and m6 its empty fallback risk file, while m2 and
m5 write no output file at all. -/
theorem c2_load_failure_behaviour :
    (writesOf (m2Run M2Res.raises) = [] ∧
      Ev.msg "Erreur lors de analyse" ∈ m2Run M2Res.raises) ∧
    ((∀ b1 b2 : Bool, writesOf (m3Run LoadRes.fileNotFound b1 b2) =
        [("segments_entreprises.csv", 0),
         ("segments_utilisateurs.csv", 0)]) ∧
      (∀ b1 b2 : Bool, writesOf (m3Run LoadRes.otherErr b1 b2) =
        [("segments_entreprises.csv", 0),
         ("segments_utilisateurs.csv", 0)]) ∧
      Ev.msg "Erreur: Fichier non trouve" ∈
        m3Run LoadRes.fileNotFound false false) ∧
    ((∀ b1 b2 b3 b4 b5 : Bool,
        writesOf (m5Run LoadRes.fileNotFound b1 b2 b3 b4 b5) = []) ∧
      (∀ b1 b2 b3 b4 b5 : Bool,
        writesOf (m5Run LoadRes.otherErr b1 b2 b3 b4 b5) = []) ∧
      Ev.msg "Fichier non trouve" ∈
        m5Run LoadRes.fileNotFound false false false false false) ∧
    ((∀ b1 b2 : Bool, writesOf (m6Run LoadRes.fileNotFound b1 b2) =
        [("risque_utilisateur.csv", 0)]) ∧
      (∀ b1 b2 : Bool, writesOf (m6Run LoadRes.otherErr b1 b2) =
        [("risque_utilisateur.csv", 0)]) ∧
      Ev.msg "Erreur: Fichier non trouve" ∈
        m6Run LoadRes.fileNotFound false false) := by
  decide

/-! ## Claim C6 -/

/-- `fileNamesOf` distributes over event concatenation. -/
theorem fileNamesOf_append (a b : List Ev) :
    fileNamesOf (a ++ b) = fileNamesOf a ++ fileNamesOf b := by
  simp [fileNamesOf, writesOf, List.filterMap_append]

/-- The m3 load prints but writes nothing. -/
theorem fileNamesOf_m3LoadEvents (res : LoadRes) :
    fileNamesOf (m3LoadEvents res) = [] := by
  cases res with
  | ok inc log =>
    by_cases h1 : inc = [] <;> by_cases h2 : log = [] <;>
      simp [m3LoadEvents, fileNamesOf, writesOf, h1, h2]
  | fileNotFound => rfl
  | otherErr => rfl

/-- Every path of the m3 enterprise section writes exactly its one
file. -/
theorem fileNamesOf_m3EntSection (inc : List IncRowC) (b : Bool) :
    fileNamesOf (m3EntSection inc b) = ["segments_entreprises.csv"] := by
  simp only [m3EntSection]
  split_ifs <;> simp [fileNamesOf, writesOf]

/-- Every path of the m3 user section writes exactly its one file. -/
theorem fileNamesOf_m3UserSection (log : List M6Row) (b : Bool) :
    fileNamesOf (m3UserSection log b) = ["segments_utilisateurs.csv"] := by
  simp only [m3UserSection]
  split_ifs <;> simp [fileNamesOf, writesOf]

/-- The files a whole m3 run writes. -/
theorem fileNamesOf_m3Run (res : LoadRes) (b1 b2 : Bool) :
    fileNamesOf (m3Run res b1 b2) =
      ["segments_entreprises.csv", "segments_utilisateurs.csv"] := by
  simp only [m3Run]
  rw [fileNamesOf_append, fileNamesOf_append, fileNamesOf_m3LoadEvents,
    fileNamesOf_m3EntSection, fileNamesOf_m3UserSection]
  rfl

/-- m2 writes no file on any path. -/
theorem fileNamesOf_m2Run (res : M2Res) : fileNamesOf (m2Run res) = [] := by
  cases res <;> rfl

/-- The m6 load prints but writes nothing. -/
theorem fileNamesOf_m6LoadEvents (res : LoadRes) :
    fileNamesOf (m6LoadEvents res) = [] := by
  cases res with
  | ok inc log =>
    by_cases h1 : inc = [] <;> by_cases h2 : log = [] <;>
      simp [m6LoadEvents, fileNamesOf, writesOf, h1, h2]
  | fileNotFound => rfl
  | otherErr => rfl

/-- The m6 enterprise section never writes a file. -/
theorem fileNamesOf_m6EntSection (inc : List IncRowC) (b : Bool) :
    fileNamesOf (m6EntSection inc b) = [] := by
  simp only [m6EntSection]
  split_ifs <;> simp [fileNamesOf, writesOf]

/-- Every path of the m6 user section writes exactly its one file. -/
theorem fileNamesOf_m6UserSection (log : List M6Row) (b : Bool) :
    fileNamesOf (m6UserSection log b) = ["risque_utilisateur.csv"] := by
  simp only [m6UserSection]
  split_ifs <;> simp [fileNamesOf, writesOf]

/-- The files a whole m6 run writes. -/
theorem fileNamesOf_m6Run (res : LoadRes) (b1 b2 : Bool) :
    fileNamesOf (m6Run res b1 b2) = ["risque_utilisateur.csv"] := by
  simp only [m6Run]
  rw [fileNamesOf_append, fileNamesOf_append, fileNamesOf_m6LoadEvents,
    fileNamesOf_m6EntSection, fileNamesOf_m6UserSection]
  rfl

/-- Every file an m5 run writes is one of its five charts or its text
report. -/
theorem m5Run_files_sub (res : LoadRes) (b1 b2 b3 b4 b5 : Bool) :
    ∀ f ∈ fileNamesOf (m5Run res b1 b2 b3 b4 b5),
      f ∈ ["incidents_par_mois.png", "impact_trimestriel.png",
           "taux_echec_mensuel.png", "distribution_severite.png",
           "top_vecteurs_attaque.png", "rapport_kpi_cybersecurite.txt"] := by
  intro f hf
  cases res with
  | fileNotFound => simp [m5Run, fileNamesOf, writesOf] at hf
  | otherErr => simp [m5Run, fileNamesOf, writesOf] at hf
  | ok inc log =>
    simp only [m5Run] at hf
    by_cases hg : m5CleanInc inc = [] ∧ m5CleanLog log = []
    · rw [if_pos hg] at hf
      simp [fileNamesOf, writesOf] at hf
    · rw [if_neg hg] at hf
      cases b1 <;> cases b2 <;> cases b3 <;> cases b4 <;> cases b5 <;>
        (simp [fileNamesOf, writesOf] at hf
         simp only [List.mem_cons, List.not_mem_nil, or_false]
         tauto)

/-- Counterexample to claim C6 as stated: m5 exports its KPI report as
`rapport_kpi_cybersecurite.txt`, which is neither a CSV, an Excel file
nor a PNG. -/
theorem c6_counterexample_txt_report :
    "rapport_kpi_cybersecurite.txt" ∈
      fileNamesOf (m5Run (LoadRes.ok [c6SampleInc] []) false false false
        false false) ∧
    specAllowedExt "rapport_kpi_cybersecurite.txt" = false := by
  decide

/-- Claim C6 (amended): every file written by any modelled script run is
a CSV, Excel, PNG or plain-text file. -/
theorem c6_amended_all_outputs (m2res : M2Res)
    (m3res m5res m6res : LoadRes)
    (a1 a2 b1 b2 b3 b4 b5 d1 d2 : Bool) :
    (∀ f ∈ fileNamesOf (m2Run m2res), amendedAllowedExt f = true) ∧
    (∀ f ∈ fileNamesOf (m3Run m3res a1 a2),
      amendedAllowedExt f = true) ∧
    (∀ f ∈ fileNamesOf (m5Run m5res b1 b2 b3 b4 b5),
      amendedAllowedExt f = true) ∧
    (∀ f ∈ fileNamesOf (m6Run m6res d1 d2),
      amendedAllowedExt f = true) ∧
    (∀ f ∈ incidentsScriptWrites ++ loginScriptWrites ++ m4Writes ++
        m7Writes ++ dataScriptWrites ++ dataExplorationWrites ++
        segmentationClientWrites, amendedAllowedExt f = true) := by
  refine ⟨?_, ?_, ?_, ?_, ?_⟩
  · rw [fileNamesOf_m2Run]
    intro f hf
    exact absurd hf (List.not_mem_nil f)
  · rw [fileNamesOf_m3Run]
    intro f hf
    fin_cases hf <;> decide
  · intro f hf
    have h2 := m5Run_files_sub m5res b1 b2 b3 b4 b5 f hf
    fin_cases h2 <;> decide
  · rw [fileNamesOf_m6Run]
    intro f hf
    fin_cases hf <;> decide
  · intro f hf
    fin_cases hf <;> decide

/-- Witness for the amended claim C6 on the m5 report file. -/
theorem c6_amended_all_outputs_witness :
    amendedAllowedExt "rapport_kpi_cybersecurite.txt" = true :=
  (c6_amended_all_outputs M2Res.raises LoadRes.fileNotFound
      (LoadRes.ok [c6SampleInc] []) LoadRes.fileNotFound
      false false false false false false false false false).2.2.1
    "rapport_kpi_cybersecurite.txt" (by decide)

end IARepo
